import Mathlib

/-!
Verification of the synchronization excerpt of `rocksdb_read`:
`src/util/atomic.h` (RelaxedAtomic / AcqRelAtomic wrappers) and
`src/monitoring/instrumented_mutex.cc` (InstrumentedMutex /
InstrumentedCondVar).  The C++ code is shallowly embedded: memory is
sequential, external collaborators (statistics sink, clock, raw condition
variable, random generator, test-injection hook) are abstracted exactly as
the code consumes them, and pseudo-random or nondeterministic outcomes are
oracle parameters.
-/

namespace RocksDB

/-- The statistics sink, consumed only through `get_stats_level()`:
its configured verbosity level, compared against a threshold. -/
structure Statistics where
  statsLevel : Nat
deriving DecidableEq

/-- A clock source handle.  In this excerpt the member clock is consumed
only through its presence (null versus non-null) by the instrumentation
gate, so no operations are needed on it. -/
structure SystemClock where
  clockId : Nat
deriving DecidableEq

/-- The `StatsLevel` threshold `kExceptTimeForMutex` that excludes mutex
timing when statistics detail is low.  Only its role as a comparison
threshold matters here; the numeral is its position in the level enum. -/
def kExceptTimeForMutex : Nat := 3

/-- The ticker tag stored in `stats_code_`.  The code compares it against
`DB_MUTEX_WAIT_MICROS`; every other tag value is collapsed into `OTHER`. -/
inductive TickerType where
  | DB_MUTEX_WAIT_MICROS
  | OTHER (n : Nat)
deriving DecidableEq

/-- The two histogram keys used by this translation unit. -/
inductive HistogramKey where
  | db_mutex_lock_nanos
  | db_condition_wait_nanos
deriving DecidableEq

/-- One latency sample recorded into the statistics sink. -/
structure Sample where
  metric : HistogramKey
  nanos : Nat
deriving DecidableEq

/-- Shallow embedding of `stats_for_report` (instrumented_mutex.cc, lines
16-23): returns the sink when the clock and the sink are non-null and the
sink level is above `kExceptTimeForMutex`, and null otherwise. -/
def stats_for_report : Option SystemClock → Option Statistics → Option Statistics
  | some _, some s =>
      if s.statsLevel > kExceptTimeForMutex then some s else none
  | _, _ => none

/-- Modelled from the spec: the RAII conditional-timer macro
`PERF_CONDITIONAL_TIMER_FOR_MUTEX_GUARD`, defined in
`monitoring/perf_context_imp.h`, which is outside this excerpt.  Per spec
section 4.3 steps 1 and 5: the latency measurement is started iff the tag
condition holds and the sink argument is non-null, and on scope exit the
elapsed duration is recorded as exactly one sample under the given
histogram key into that sink; otherwise nothing is recorded.  The elapsed
wall time of the guarded scope is the oracle `elapsedNanos`. -/
def perfConditionalTimerForMutexGuard (metric : HistogramKey)
    (condition : Bool) (sink : Option Statistics) (elapsedNanos : Nat) :
    List Sample :=
  if condition ∧ sink.isSome then [⟨metric, elapsedNanos⟩] else []

/-- The instrumented mutex configuration: the nullable external references
and the tag, fixed at construction (the raw mutex itself carries no data
relevant to the embedded behavior).  `bg_cv` records whether the signal
group pointer `bg_cv_` is non-null. -/
structure InstrumentedMutex where
  stats : Option Statistics
  clock : Option SystemClock
  stats_code : TickerType
  bg_cv : Bool
deriving DecidableEq

/-- Scheduling perturbation actions of the chaos branch. -/
inductive SchedAction where
  | signalAll
  | yieldOnce
  | sleepForMicroseconds (us : Nat)
deriving DecidableEq

/-- Primitive blocking or injection operations performed by the
instrumented primitives, in order. -/
inductive PrimOp where
  | sched (a : SchedAction)
  | rawLock
  | condWait
  | testSyncPoint (payloadMicros : Nat)
  | condTimedWait (deadlineMicros : Nat)
deriving DecidableEq

/-- Modelled from the spec: `Random::Uniform(n)` (util/random.h, outside
this excerpt) returns a pseudo-random value uniformly distributed in
`[0, n)`; the raw draw is the oracle `r`, reduced into range. -/
def randomUniform (n : Nat) (r : Nat) : Nat := r % n

/-- Shallow embedding of the `COERCE_CONTEXT_SWITCH` block of
`InstrumentedMutex::LockInternal` (lines 48-64): the scheduling actions
performed before acquiring the raw lock.  `coerce` reflects the
`COERCE_CONTEXT_SWITCH` build flag; `oneIn2` is the oracle outcome of
`rnd.OneIn(2)` and `r` the raw draw behind `rnd.Uniform(11)`. -/
def LockInternalChaos (m : InstrumentedMutex) (coerce : Bool)
    (oneIn2 : Bool) (r : Nat) : List SchedAction :=
  if coerce ∧ m.stats_code = TickerType.DB_MUTEX_WAIT_MICROS then
    if oneIn2 then
      (if m.bg_cv then [SchedAction.signalAll] else []) ++
        [SchedAction.yieldOnce]
    else
      (if m.bg_cv then [SchedAction.signalAll] else []) ++
        [SchedAction.sleepForMicroseconds (randomUniform 11 r * 1000)]
  else []

/-- Shallow embedding of `InstrumentedMutex::LockInternal` (lines 37-66):
the chaos perturbation (when compiled in) followed by the raw lock
acquisition `mutex_.Lock()`.  The debug-only thread-state report is
advisory and carries no embedded behavior. -/
def InstrumentedMutex.LockInternal (m : InstrumentedMutex) (coerce : Bool)
    (oneIn2 : Bool) (r : Nat) : List PrimOp :=
  (LockInternalChaos m coerce oneIn2 r).map PrimOp.sched ++ [PrimOp.rawLock]

/-- Observable effect of one `Lock()` call: the samples recorded into the
statistics sink and the primitive operations performed. -/
structure LockEffect where
  samples : List Sample
  ops : List PrimOp
deriving DecidableEq

/-- Shallow embedding of `InstrumentedMutex::Lock` (lines 27-35): the
conditional timer guard wraps `LockInternal()`, with histogram key
`db_mutex_lock_nanos`, condition `stats_code_ == DB_MUTEX_WAIT_MICROS`,
and sink `stats_for_report(clock_, stats_)`. -/
def InstrumentedMutex.Lock (m : InstrumentedMutex) (elapsedNanos : Nat)
    (coerce : Bool) (oneIn2 : Bool) (r : Nat) : LockEffect :=
  { samples := perfConditionalTimerForMutexGuard
      HistogramKey.db_mutex_lock_nanos
      (decide (m.stats_code = TickerType.DB_MUTEX_WAIT_MICROS))
      (stats_for_report m.clock m.stats) elapsedNanos
    ops := m.LockInternal coerce oneIn2 r }

/-- Modelled from the spec (section 3): the wait handle is paired with one
instrumented lock, which supplies the statistics sink, clock and tag it
reuses for wait timing.  The constructor lives in the header
`monitoring/instrumented_mutex.h`, outside this excerpt, so the handle is
embedded as the configuration it copies from its lock. -/
structure InstrumentedCondVar where
  stats : Option Statistics
  clock : Option SystemClock
  stats_code : TickerType
deriving DecidableEq

/-- Modelled from the spec: the raw condition variable deadline-bounded
wait `cond_.TimedWait(abs_time_us)` (port layer, outside this excerpt):
it returns true iff the absolute deadline was reached without a signal,
and false on a signal or spurious wakeup.  Which of these happens depends
on other threads, so the outcome is an oracle function of the deadline. -/
structure RawCondVar where
  timedWaitDeadlineReached : Nat → Bool

/-- Modelled from the spec: the named test-injection point
`TEST_SYNC_POINT_CALLBACK` (test_util/sync_point.h, outside this excerpt):
a registered callback for the point name may observe or rewrite the
payload; with no callback registered, the payload is left unchanged. -/
def TEST_SYNC_POINT_CALLBACK (callback : Option (Nat → Nat))
    (payload : Nat) : Nat :=
  match callback with
  | some f => f payload
  | none => payload

/-- Shallow embedding of `InstrumentedCondVar::TimedWaitInternal` (lines
89-98): the test-injection point is invoked with the deadline, which the
registered callback may rewrite, and the raw timed wait then runs on the
possibly rewritten deadline; its boolean result is returned unchanged. -/
def InstrumentedCondVar.TimedWaitInternal (_cv : InstrumentedCondVar)
    (raw : RawCondVar) (callback : Option (Nat → Nat))
    (abs_time_us : Nat) : Bool × List PrimOp :=
  let rewritten := TEST_SYNC_POINT_CALLBACK callback abs_time_us
  (raw.timedWaitDeadlineReached rewritten,
   [PrimOp.testSyncPoint abs_time_us, PrimOp.condTimedWait rewritten])

/-- Observable effect of one `TimedWait()` call. -/
structure TimedWaitEffect where
  result : Bool
  samples : List Sample
  ops : List PrimOp

/-- Shallow embedding of `InstrumentedCondVar::TimedWait` (lines 82-87):
the same conditional timer guard as `Lock()`, but with histogram key
`db_condition_wait_nanos`, wrapping `TimedWaitInternal` and returning its
boolean result. -/
def InstrumentedCondVar.TimedWait (cv : InstrumentedCondVar)
    (raw : RawCondVar) (callback : Option (Nat → Nat))
    (abs_time_us : Nat) (elapsedNanos : Nat) : TimedWaitEffect :=
  let inner := cv.TimedWaitInternal raw callback abs_time_us
  { result := inner.1
    samples := perfConditionalTimerForMutexGuard
      HistogramKey.db_condition_wait_nanos
      (decide (cv.stats_code = TickerType.DB_MUTEX_WAIT_MICROS))
      (stats_for_report cv.clock cv.stats) elapsedNanos
    ops := inner.2 }

/-- Shallow embedding of `InstrumentedCondVar::WaitInternal` (lines
75-80): an unconditional wait on the raw condition variable. -/
def InstrumentedCondVar.WaitInternal (_cv : InstrumentedCondVar) :
    List PrimOp := [PrimOp.condWait]

/-- Observable effect of one `Wait()` call. -/
structure WaitEffect where
  samples : List Sample
  ops : List PrimOp
deriving DecidableEq

/-- Shallow embedding of `InstrumentedCondVar::Wait` (lines 68-73): the
conditional timer guard with histogram key `db_condition_wait_nanos`
wrapping `WaitInternal()`. -/
def InstrumentedCondVar.Wait (cv : InstrumentedCondVar)
    (elapsedNanos : Nat) : WaitEffect :=
  { samples := perfConditionalTimerForMutexGuard
      HistogramKey.db_condition_wait_nanos
      (decide (cv.stats_code = TickerType.DB_MUTEX_WAIT_MICROS))
      (stats_for_report cv.clock cv.stats) elapsedNanos
    ops := cv.WaitInternal }

/-! Atomic wrappers (src/util/atomic.h).  In the sequential shallow
embedding a cell is its current value; each member function returns its
C++ return value together with the updated cell.  Spurious failure of the
weak compare-exchange is a per-call oracle boolean. -/

/-- Shallow embedding of `RelaxedAtomic<T>` (atomic.h, lines 61-96): the
wrapped storage `v_`. -/
structure RelaxedAtomic (T : Type) where
  v : T
deriving DecidableEq

/-- Result of a compare-exchange call: the boolean return value, the cell
content after the call, and the content of the caller-visible `expected`
slot after the call. -/
structure CasOutcome (T : Type) where
  success : Bool
  cell : T
  expected : T
deriving DecidableEq

/-- Shallow embedding of `std::atomic<T>::compare_exchange_strong` applied
to a cell holding `cell`: succeeds exactly when `cell = expected` (no
spurious failure), replacing the content with `desired`; on failure the
cell is unchanged and the current content is written into `expected`. -/
def compare_exchange_strong {T : Type} [DecidableEq T]
    (cell expected desired : T) : CasOutcome T :=
  if cell = expected then ⟨true, desired, expected⟩ else ⟨false, cell, cell⟩

/-- Shallow embedding of `std::atomic<T>::compare_exchange_weak` applied
to a cell holding `cell`: like the strong variant, but may additionally
fail even when `cell = expected` when the oracle `spurious` is true; every
failure leaves the cell unchanged and writes the current content into
`expected`. -/
def compare_exchange_weak {T : Type} [DecidableEq T] (spurious : Bool)
    (cell expected desired : T) : CasOutcome T :=
  if cell = expected ∧ spurious = false then ⟨true, desired, expected⟩
  else ⟨false, cell, cell⟩

/-- Embedding of `RelaxedAtomic::StoreRelaxed` (line 65). -/
def RelaxedAtomic.StoreRelaxed {T : Type} (_a : RelaxedAtomic T)
    (desired : T) : RelaxedAtomic T := ⟨desired⟩

/-- Embedding of `RelaxedAtomic::LoadRelaxed` (line 66). -/
def RelaxedAtomic.LoadRelaxed {T : Type} (a : RelaxedAtomic T) : T := a.v

/-- Embedding of `RelaxedAtomic::CasWeakRelaxed` (lines 67-70). -/
def RelaxedAtomic.CasWeakRelaxed {T : Type} [DecidableEq T]
    (a : RelaxedAtomic T) (spurious : Bool) (expected desired : T) :
    CasOutcome T :=
  compare_exchange_weak spurious a.v expected desired

/-- Embedding of `RelaxedAtomic::CasStrongRelaxed` (lines 71-74). -/
def RelaxedAtomic.CasStrongRelaxed {T : Type} [DecidableEq T]
    (a : RelaxedAtomic T) (expected desired : T) : CasOutcome T :=
  compare_exchange_strong a.v expected desired

/-- Embedding of `RelaxedAtomic::ExchangeRelaxed` (lines 75-77): returns
the prior content and stores `desired`. -/
def RelaxedAtomic.ExchangeRelaxed {T : Type} (a : RelaxedAtomic T)
    (desired : T) : T × RelaxedAtomic T := (a.v, ⟨desired⟩)

/-- Embedding of `RelaxedAtomic::FetchAddRelaxed` (lines 78-80): returns
the content immediately prior to the modification. -/
def RelaxedAtomic.FetchAddRelaxed {T : Type} [Add T] (a : RelaxedAtomic T)
    (operand : T) : T × RelaxedAtomic T := (a.v, ⟨a.v + operand⟩)

/-- Embedding of `RelaxedAtomic::FetchSubRelaxed` (lines 81-83). -/
def RelaxedAtomic.FetchSubRelaxed {T : Type} [Sub T] (a : RelaxedAtomic T)
    (operand : T) : T × RelaxedAtomic T := (a.v, ⟨a.v - operand⟩)

/-- Embedding of `RelaxedAtomic::FetchAndRelaxed` (lines 84-86). -/
def RelaxedAtomic.FetchAndRelaxed {T : Type} [AndOp T] (a : RelaxedAtomic T)
    (operand : T) : T × RelaxedAtomic T := (a.v, ⟨a.v &&& operand⟩)

/-- Embedding of `RelaxedAtomic::FetchOrRelaxed` (lines 87-89). -/
def RelaxedAtomic.FetchOrRelaxed {T : Type} [OrOp T] (a : RelaxedAtomic T)
    (operand : T) : T × RelaxedAtomic T := (a.v, ⟨a.v ||| operand⟩)

/-- Embedding of `RelaxedAtomic::FetchXorRelaxed` (lines 90-92). -/
def RelaxedAtomic.FetchXorRelaxed {T : Type} [Xor T] (a : RelaxedAtomic T)
    (operand : T) : T × RelaxedAtomic T := (a.v, ⟨a.v ^^^ operand⟩)

/-- Shallow embedding of `AcqRelAtomic<T>` (atomic.h, lines 139-175):
publicly inherits `RelaxedAtomic<T>` and shares its storage `v_`; the
stronger memory orders have no further sequential content. -/
structure AcqRelAtomic (T : Type) extends RelaxedAtomic T
deriving DecidableEq

/-- Embedding of `AcqRelAtomic::Store` (lines 143-145). -/
def AcqRelAtomic.Store {T : Type} (_a : AcqRelAtomic T) (desired : T) :
    AcqRelAtomic T := ⟨⟨desired⟩⟩

/-- Embedding of `AcqRelAtomic::Load` (lines 146-148). -/
def AcqRelAtomic.Load {T : Type} (a : AcqRelAtomic T) : T := a.v

/-- Embedding of `AcqRelAtomic::CasWeak` (lines 149-152). -/
def AcqRelAtomic.CasWeak {T : Type} [DecidableEq T] (a : AcqRelAtomic T)
    (spurious : Bool) (expected desired : T) : CasOutcome T :=
  compare_exchange_weak spurious a.v expected desired

/-- Embedding of `AcqRelAtomic::CasStrong` (lines 153-156). -/
def AcqRelAtomic.CasStrong {T : Type} [DecidableEq T] (a : AcqRelAtomic T)
    (expected desired : T) : CasOutcome T :=
  compare_exchange_strong a.v expected desired

/-- Embedding of `AcqRelAtomic::Exchange` (lines 157-159). -/
def AcqRelAtomic.Exchange {T : Type} (a : AcqRelAtomic T) (desired : T) :
    T × AcqRelAtomic T := (a.v, ⟨⟨desired⟩⟩)

/-- Embedding of `AcqRelAtomic::FetchAdd` (lines 160-162). -/
def AcqRelAtomic.FetchAdd {T : Type} [Add T] (a : AcqRelAtomic T)
    (operand : T) : T × AcqRelAtomic T := (a.v, ⟨⟨a.v + operand⟩⟩)

/-- Embedding of `AcqRelAtomic::FetchSub` (lines 163-165). -/
def AcqRelAtomic.FetchSub {T : Type} [Sub T] (a : AcqRelAtomic T)
    (operand : T) : T × AcqRelAtomic T := (a.v, ⟨⟨a.v - operand⟩⟩)

/-- Embedding of `AcqRelAtomic::FetchAnd` (lines 166-168). -/
def AcqRelAtomic.FetchAnd {T : Type} [AndOp T] (a : AcqRelAtomic T)
    (operand : T) : T × AcqRelAtomic T := (a.v, ⟨⟨a.v &&& operand⟩⟩)

/-- Embedding of `AcqRelAtomic::FetchOr` (lines 169-171). -/
def AcqRelAtomic.FetchOr {T : Type} [OrOp T] (a : AcqRelAtomic T)
    (operand : T) : T × AcqRelAtomic T := (a.v, ⟨⟨a.v ||| operand⟩⟩)

/-- Embedding of `AcqRelAtomic::FetchXor` (lines 172-174). -/
def AcqRelAtomic.FetchXor {T : Type} [Xor T] (a : AcqRelAtomic T)
    (operand : T) : T × AcqRelAtomic T := (a.v, ⟨⟨a.v ^^^ operand⟩⟩)

/-! Single-threaded operation sequences (claim C8): an operation language
over one cell, its run through the embedded RelaxedAtomic member
functions, and an independently written plain-variable semantics. -/

/-- One single-threaded operation on an atomic cell.  The weak
compare-exchange carries its spurious-failure oracle. -/
inductive AtomicOp (T : Type) where
  | store (desired : T)
  | load
  | exchange (desired : T)
  | fetchAdd (operand : T)
  | fetchSub (operand : T)
  | fetchAnd (operand : T)
  | fetchOr (operand : T)
  | fetchXor (operand : T)
  | casWeak (spurious : Bool) (expected desired : T)
  | casStrong (expected desired : T)
deriving DecidableEq

/-- What one operation returns to the caller. -/
inductive AtomicObs (T : Type) where
  | unitObs
  | valObs (v : T)
  | casObs (success : Bool) (expected : T)
deriving DecidableEq

/-- Run one operation through the embedded `RelaxedAtomic` member
functions. -/
def runRelaxedOp {T : Type} [DecidableEq T] [Add T] [Sub T] [AndOp T]
    [OrOp T] [Xor T] (a : RelaxedAtomic T) :
    AtomicOp T → AtomicObs T × RelaxedAtomic T
  | .store d => (.unitObs, a.StoreRelaxed d)
  | .load => (.valObs a.LoadRelaxed, a)
  | .exchange d =>
      let p := a.ExchangeRelaxed d
      (.valObs p.1, p.2)
  | .fetchAdd o =>
      let p := a.FetchAddRelaxed o
      (.valObs p.1, p.2)
  | .fetchSub o =>
      let p := a.FetchSubRelaxed o
      (.valObs p.1, p.2)
  | .fetchAnd o =>
      let p := a.FetchAndRelaxed o
      (.valObs p.1, p.2)
  | .fetchOr o =>
      let p := a.FetchOrRelaxed o
      (.valObs p.1, p.2)
  | .fetchXor o =>
      let p := a.FetchXorRelaxed o
      (.valObs p.1, p.2)
  | .casWeak sp e d =>
      let c := a.CasWeakRelaxed sp e d
      (.casObs c.success c.expected, ⟨c.cell⟩)
  | .casStrong e d =>
      let c := a.CasStrongRelaxed e d
      (.casObs c.success c.expected, ⟨c.cell⟩)

/-- Run a sequence of operations through the embedded `RelaxedAtomic`
member functions, collecting the observations in order and the final
cell. -/
def runRelaxedOps {T : Type} [DecidableEq T] [Add T] [Sub T] [AndOp T]
    [OrOp T] [Xor T] (a : RelaxedAtomic T) :
    List (AtomicOp T) → List (AtomicObs T) × RelaxedAtomic T
  | [] => ([], a)
  | op :: ops =>
      let p := runRelaxedOp a op
      let q := runRelaxedOps p.2 ops
      (p.1 :: q.1, q.2)

/-- Ordinary sequential semantics of the operation set on a plain
variable, written from the spec (sections 4.1 and 8): store overwrites;
load reads; exchange and the numeric fetch-ops return the value
immediately prior to the modification; strong CAS succeeds exactly on
equality; weak CAS may additionally fail spuriously; every CAS failure
reports the current value in the expected slot and leaves the variable
unchanged. -/
def seqOp {T : Type} [DecidableEq T] [Add T] [Sub T] [AndOp T] [OrOp T]
    [Xor T] (x : T) : AtomicOp T → AtomicObs T × T
  | .store d => (.unitObs, d)
  | .load => (.valObs x, x)
  | .exchange d => (.valObs x, d)
  | .fetchAdd o => (.valObs x, x + o)
  | .fetchSub o => (.valObs x, x - o)
  | .fetchAnd o => (.valObs x, x &&& o)
  | .fetchOr o => (.valObs x, x ||| o)
  | .fetchXor o => (.valObs x, x ^^^ o)
  | .casWeak sp e d =>
      if x = e ∧ sp = false then (.casObs true e, d)
      else (.casObs false x, x)
  | .casStrong e d =>
      if x = e then (.casObs true e, d) else (.casObs false x, x)

/-- Sequential plain-variable run of a sequence of operations. -/
def seqOps {T : Type} [DecidableEq T] [Add T] [Sub T] [AndOp T] [OrOp T]
    [Xor T] (x : T) : List (AtomicOp T) → List (AtomicObs T) × T
  | [] => ([], x)
  | op :: ops =>
      let p := seqOp x op
      let q := seqOps p.2 ops
      (p.1 :: q.1, q.2)

/-! Helper lemmas shared by several claims. -/

/-- The report gate is non-null exactly when the clock is non-null, the
sink is non-null and the sink level is above the threshold. -/
lemma stats_for_report_isSome (cl : Option SystemClock)
    (st : Option Statistics) :
    (stats_for_report cl st).isSome = true ↔
      cl.isSome = true ∧
        ∃ s, st = some s ∧ s.statsLevel > kExceptTimeForMutex := by
  cases cl with
  | none => simp [stats_for_report]
  | some c =>
      cases st with
      | none => simp [stats_for_report]
      | some s =>
          by_cases h : s.statsLevel > kExceptTimeForMutex <;>
            simp [stats_for_report, h]

/-- The number of samples the conditional timer guard records does not
depend on the histogram key or the elapsed time, only on the gate. -/
lemma perfGuard_length (k1 k2 : HistogramKey) (c : Bool)
    (sink : Option Statistics) (e1 e2 : Nat) :
    (perfConditionalTimerForMutexGuard k1 c sink e1).length =
      (perfConditionalTimerForMutexGuard k2 c sink e2).length := by
  dsimp [perfConditionalTimerForMutexGuard]
  split <;> rfl

/-- Fixed mutex configuration used for concrete evaluations: a sink at
level 4, a clock, a tag other than `DB_MUTEX_WAIT_MICROS`. -/
def mutexOtherTag : InstrumentedMutex :=
  ⟨some ⟨4⟩, some ⟨0⟩, TickerType.OTHER 0, false⟩

/-- Fixed mutex configuration used for concrete evaluations: a sink at
level 4, a clock, the `DB_MUTEX_WAIT_MICROS` tag. -/
def mutexBgTag : InstrumentedMutex :=
  ⟨some ⟨4⟩, some ⟨0⟩, TickerType.DB_MUTEX_WAIT_MICROS, false⟩

/-! Claims. -/

/-- C1, counterexample: a lock whose sink is attached with level 4 (above
the threshold 3) and whose clock is non-null, but whose tag is not
`DB_MUTEX_WAIT_MICROS`, records zero samples in `Lock()`, not exactly
one as the claim demands. -/
theorem C1_counterexample :
    mutexOtherTag.stats = some ⟨4⟩ ∧
      Statistics.statsLevel ⟨4⟩ > kExceptTimeForMutex ∧
      mutexOtherTag.clock = some ⟨0⟩ ∧
      (mutexOtherTag.Lock 7 false false 0).samples.length = 0 := by
  refine ⟨rfl, by decide, rfl, ?_⟩
  rfl

/-- C1, amended: `Lock()` records exactly one sample when the sink is
attached with level above the threshold, the clock is non-null, and the
tag is the wait-for-background-work classification; it records zero
samples when the sink is absent or its level is at or below the
threshold. -/
theorem C1_lock_sample_count (m : InstrumentedMutex) (e : Nat)
    (c o : Bool) (r : Nat) :
    (∀ s, m.stats = some s → s.statsLevel > kExceptTimeForMutex →
      m.clock.isSome = true →
      m.stats_code = TickerType.DB_MUTEX_WAIT_MICROS →
      (m.Lock e c o r).samples.length = 1) ∧
    (m.stats = none → (m.Lock e c o r).samples.length = 0) ∧
    (∀ s, m.stats = some s → s.statsLevel ≤ kExceptTimeForMutex →
      (m.Lock e c o r).samples.length = 0) := by
  obtain ⟨st, cl, code, bg⟩ := m
  refine ⟨?_, ?_, ?_⟩
  · intro s hs hlvl hclock hcode
    cases hs
    cases hcode
    cases cl with
    | none => simp at hclock
    | some clk =>
        simp [InstrumentedMutex.Lock, perfConditionalTimerForMutexGuard,
          stats_for_report, hlvl]
  · intro hnone
    cases hnone
    cases cl <;>
      simp [InstrumentedMutex.Lock, perfConditionalTimerForMutexGuard,
        stats_for_report]
  · intro s hs hlvl
    cases hs
    cases cl <;>
      simp [InstrumentedMutex.Lock, perfConditionalTimerForMutexGuard,
        stats_for_report, Nat.not_lt.mpr hlvl]

/-- C1, witness: the one-sample case of `C1_lock_sample_count` holds at a
concrete fully instrumented configuration. -/
theorem C1_lock_sample_count_witness :
    (mutexBgTag.Lock 7 false false 0).samples.length = 1 :=
  (C1_lock_sample_count mutexBgTag 7 false false 0).1 ⟨4⟩ rfl (by decide)
    rfl rfl

/-- C2: `Lock()` records the elapsed duration as one sample under
`db_mutex_lock_nanos` exactly when the tag is `DB_MUTEX_WAIT_MICROS`,
the clock is non-null, the sink is non-null and the sink level is above
the `kExceptTimeForMutex` threshold; in every other case it records
nothing. -/
theorem C2_lock_records_iff (m : InstrumentedMutex) (e : Nat)
    (c o : Bool) (r : Nat) :
    ((m.Lock e c o r).samples =
        [⟨HistogramKey.db_mutex_lock_nanos, e⟩] ↔
      m.stats_code = TickerType.DB_MUTEX_WAIT_MICROS ∧
        m.clock.isSome = true ∧
        ∃ s, m.stats = some s ∧ s.statsLevel > kExceptTimeForMutex) ∧
    ((m.Lock e c o r).samples =
        [⟨HistogramKey.db_mutex_lock_nanos, e⟩] ∨
      (m.Lock e c o r).samples = []) := by
  have hgate := stats_for_report_isSome m.clock m.stats
  dsimp [InstrumentedMutex.Lock, perfConditionalTimerForMutexGuard]
  split
  · next h =>
      exact ⟨⟨fun _ => ⟨of_decide_eq_true h.1, hgate.mp h.2⟩,
        fun _ => rfl⟩, Or.inl rfl⟩
  · next h =>
      refine ⟨⟨fun hcontra => ?_, fun hcond => ?_⟩, Or.inr rfl⟩
      · simp at hcontra
      · exact absurd ⟨decide_eq_true hcond.1, hgate.mpr hcond.2⟩ h

/-- C2, witness: at a fully instrumented configuration the recorded
sample list is exactly the singleton with the mutex-lock-wait key. -/
theorem C2_lock_records_iff_witness :
    (mutexBgTag.Lock 9 false false 0).samples =
      [⟨HistogramKey.db_mutex_lock_nanos, 9⟩] :=
  (C2_lock_records_iff mutexBgTag 9 false false 0).1.mpr
    ⟨rfl, rfl, ⟨4⟩, rfl, by decide⟩

/-- C3: on either cell type, a strong compare-exchange with `expected`
equal to the current content X succeeds: it returns true, leaves the cell
holding Y, and cannot fail spuriously (the embedded
`compare_exchange_strong` has no spurious-failure outcome). -/
theorem C3_casStrong_succeeds {T : Type} [DecidableEq T] (x y : T) :
    (RelaxedAtomic.CasStrongRelaxed ⟨x⟩ x y).success = true ∧
    (RelaxedAtomic.CasStrongRelaxed ⟨x⟩ x y).cell = y ∧
    (AcqRelAtomic.CasStrong ⟨⟨x⟩⟩ x y).success = true ∧
    (AcqRelAtomic.CasStrong ⟨⟨x⟩⟩ x y).cell = y := by
  simp [RelaxedAtomic.CasStrongRelaxed, AcqRelAtomic.CasStrong,
    compare_exchange_strong]

/-- C3, witness: concrete instance at a cell holding 3 with desired 5. -/
theorem C3_casStrong_succeeds_witness :
    (RelaxedAtomic.CasStrongRelaxed (⟨3⟩ : RelaxedAtomic Nat) 3 5).success
        = true ∧
    (RelaxedAtomic.CasStrongRelaxed (⟨3⟩ : RelaxedAtomic Nat) 3 5).cell
        = 5 ∧
    (AcqRelAtomic.CasStrong (⟨⟨3⟩⟩ : AcqRelAtomic Nat) 3 5).success
        = true ∧
    (AcqRelAtomic.CasStrong (⟨⟨3⟩⟩ : AcqRelAtomic Nat) 3 5).cell = 5 :=
  C3_casStrong_succeeds 3 5

/-- C4: for all four compare-exchange member functions, whenever the call
returns false the current cell content is written back into the
caller-visible expected slot, and the cell keeps its prior content (in
this embedding no failure, spurious or not, modifies the cell). -/
theorem C4_cas_failure_writeback {T : Type} [DecidableEq T]
    (x e d : T) (sp : Bool) :
    ((RelaxedAtomic.CasWeakRelaxed ⟨x⟩ sp e d).success = false →
      (RelaxedAtomic.CasWeakRelaxed ⟨x⟩ sp e d).expected = x ∧
      (RelaxedAtomic.CasWeakRelaxed ⟨x⟩ sp e d).cell = x) ∧
    ((RelaxedAtomic.CasStrongRelaxed ⟨x⟩ e d).success = false →
      (RelaxedAtomic.CasStrongRelaxed ⟨x⟩ e d).expected = x ∧
      (RelaxedAtomic.CasStrongRelaxed ⟨x⟩ e d).cell = x) ∧
    ((AcqRelAtomic.CasWeak ⟨⟨x⟩⟩ sp e d).success = false →
      (AcqRelAtomic.CasWeak ⟨⟨x⟩⟩ sp e d).expected = x ∧
      (AcqRelAtomic.CasWeak ⟨⟨x⟩⟩ sp e d).cell = x) ∧
    ((AcqRelAtomic.CasStrong ⟨⟨x⟩⟩ e d).success = false →
      (AcqRelAtomic.CasStrong ⟨⟨x⟩⟩ e d).expected = x ∧
      (AcqRelAtomic.CasStrong ⟨⟨x⟩⟩ e d).cell = x) := by
  refine ⟨?_, ?_, ?_, ?_⟩ <;>
    dsimp [RelaxedAtomic.CasWeakRelaxed, RelaxedAtomic.CasStrongRelaxed,
      AcqRelAtomic.CasWeak, AcqRelAtomic.CasStrong,
      compare_exchange_weak, compare_exchange_strong] <;>
    split <;> intro hfail <;> first | exact ⟨rfl, rfl⟩ | cases hfail

/-- C4, witness: a genuine (non-spurious) failure at a cell holding 1
with expected 2 writes 1 back and leaves the cell at 1, for all four
variants. -/
theorem C4_cas_failure_writeback_witness :
    ((RelaxedAtomic.CasWeakRelaxed (⟨1⟩ : RelaxedAtomic Nat) false 2 3
        ).expected = 1 ∧
      (RelaxedAtomic.CasWeakRelaxed (⟨1⟩ : RelaxedAtomic Nat) false 2 3
        ).cell = 1) ∧
    ((RelaxedAtomic.CasStrongRelaxed (⟨1⟩ : RelaxedAtomic Nat) 2 3
        ).expected = 1 ∧
      (RelaxedAtomic.CasStrongRelaxed (⟨1⟩ : RelaxedAtomic Nat) 2 3
        ).cell = 1) ∧
    ((AcqRelAtomic.CasWeak (⟨⟨1⟩⟩ : AcqRelAtomic Nat) false 2 3
        ).expected = 1 ∧
      (AcqRelAtomic.CasWeak (⟨⟨1⟩⟩ : AcqRelAtomic Nat) false 2 3
        ).cell = 1) ∧
    ((AcqRelAtomic.CasStrong (⟨⟨1⟩⟩ : AcqRelAtomic Nat) 2 3
        ).expected = 1 ∧
      (AcqRelAtomic.CasStrong (⟨⟨1⟩⟩ : AcqRelAtomic Nat) 2 3
        ).cell = 1) :=
  ⟨(C4_cas_failure_writeback 1 2 3 false).1 (by decide),
   (C4_cas_failure_writeback 1 2 3 false).2.1 (by decide),
   (C4_cas_failure_writeback 1 2 3 false).2.2.1 (by decide),
   (C4_cas_failure_writeback 1 2 3 false).2.2.2 (by decide)⟩

/-- C5: in the chaos build, when the tag is the background-wait
classification and a signal group is attached, `Lock()` performs before
the raw lock acquisition either signal-all followed by one yield (when
the 1-in-2 draw is true), or signal-all followed by a sleep of
`Uniform(11) * 1000` microseconds, a whole number of milliseconds between
0 and 10 milliseconds (when the draw is false). -/
theorem C5_chaos_branches (m : InstrumentedMutex) (oneIn2 : Bool)
    (r e : Nat) :
    m.stats_code = TickerType.DB_MUTEX_WAIT_MICROS → m.bg_cv = true →
    ((oneIn2 = true →
        (m.Lock e true oneIn2 r).ops =
          [PrimOp.sched SchedAction.signalAll,
           PrimOp.sched SchedAction.yieldOnce, PrimOp.rawLock]) ∧
     (oneIn2 = false →
        (m.Lock e true oneIn2 r).ops =
          [PrimOp.sched SchedAction.signalAll,
           PrimOp.sched
             (SchedAction.sleepForMicroseconds (randomUniform 11 r * 1000)),
           PrimOp.rawLock] ∧
          randomUniform 11 r * 1000 ≤ 10000 ∧
          randomUniform 11 r * 1000 % 1000 = 0)) := by
  intro hcode hbg
  obtain ⟨st, cl, code, bg⟩ := m
  dsimp at hcode hbg
  subst hcode
  subst hbg
  constructor
  · intro h1
    subst h1
    simp [InstrumentedMutex.Lock, InstrumentedMutex.LockInternal,
      LockInternalChaos]
  · intro h2
    subst h2
    refine ⟨by simp [InstrumentedMutex.Lock,
      InstrumentedMutex.LockInternal, LockInternalChaos], ?_, ?_⟩
    · have hlt : r % 11 < 11 := Nat.mod_lt r (by decide)
      dsimp [randomUniform]
      omega
    · exact Nat.mul_mod_left _ _

/-- C5, witness: with the background tag, an attached signal group, and a
true 1-in-2 draw, the operations are signal-all, one yield, then the raw
lock acquisition. -/
theorem C5_chaos_branches_witness :
    (InstrumentedMutex.Lock
        ⟨none, none, TickerType.DB_MUTEX_WAIT_MICROS, true⟩
        0 true true 5).ops =
      [PrimOp.sched SchedAction.signalAll,
       PrimOp.sched SchedAction.yieldOnce, PrimOp.rawLock] :=
  (C5_chaos_branches ⟨none, none, TickerType.DB_MUTEX_WAIT_MICROS, true⟩
    true 5 0 rfl rfl).1 rfl

/-- C6: `TimedWait` returns the boolean result of the underlying raw
timed wait unchanged, and that boolean is the deadline-reached outcome of
the raw condition variable on the deadline actually passed down.  The
return type is `Bool`; no error channel exists in the embedding, matching
the code, which returns `cond_.TimedWait(...)` directly. -/
theorem C6_timedwait_bool (cv : InstrumentedCondVar) (raw : RawCondVar)
    (cb : Option (Nat → Nat)) (t e : Nat) :
    (cv.TimedWait raw cb t e).result = (cv.TimedWaitInternal raw cb t).1 ∧
    (cv.TimedWaitInternal raw cb t).1 =
      raw.timedWaitDeadlineReached (TEST_SYNC_POINT_CALLBACK cb t) :=
  ⟨rfl, rfl⟩

/-- C7: in `TimedWaitInternal` the test-injection point fires with the
original deadline immediately before the raw timed wait, and the raw wait
receives the deadline as rewritten by the registered callback; with no
callback registered the original deadline is passed through. -/
theorem C7_syncpoint_rewrite (cv : InstrumentedCondVar)
    (raw : RawCondVar) (cb : Option (Nat → Nat)) (t : Nat) :
    (cv.TimedWaitInternal raw cb t).2 =
      [PrimOp.testSyncPoint t,
       PrimOp.condTimedWait (TEST_SYNC_POINT_CALLBACK cb t)] ∧
    (cb = none →
      (cv.TimedWaitInternal raw cb t).2 =
        [PrimOp.testSyncPoint t, PrimOp.condTimedWait t]) ∧
    (∀ f, cb = some f →
      (cv.TimedWaitInternal raw cb t).2 =
        [PrimOp.testSyncPoint t, PrimOp.condTimedWait (f t)]) := by
  refine ⟨rfl, ?_, ?_⟩
  · intro h
    subst h
    rfl
  · intro f h
    subst h
    rfl

/-- C7, witness: with no registered callback the raw wait receives the
original deadline 10. -/
theorem C7_syncpoint_rewrite_witness :
    (InstrumentedCondVar.TimedWaitInternal
        ⟨none, none, TickerType.OTHER 0⟩ ⟨fun _ => false⟩ none 10).2 =
      [PrimOp.testSyncPoint 10, PrimOp.condTimedWait 10] :=
  (C7_syncpoint_rewrite ⟨none, none, TickerType.OTHER 0⟩
    ⟨fun _ => false⟩ none 10).2.1 rfl

/-- Each embedded RelaxedAtomic operation agrees with the plain-variable
sequential semantics on result and updated content. -/
lemma runRelaxedOp_eq_seqOp {T : Type} [DecidableEq T] [Add T] [Sub T]
    [AndOp T] [OrOp T] [Xor T] (a : RelaxedAtomic T) (op : AtomicOp T) :
    runRelaxedOp a op = ((seqOp a.v op).1, ⟨(seqOp a.v op).2⟩) := by
  cases op <;>
    first
      | rfl
      | (dsimp [runRelaxedOp, seqOp, RelaxedAtomic.CasWeakRelaxed,
          RelaxedAtomic.CasStrongRelaxed, compare_exchange_weak,
          compare_exchange_strong]
         split <;> rfl)

/-- Sequence version of `runRelaxedOp_eq_seqOp`. -/
lemma runRelaxedOps_eq_seqOps {T : Type} [DecidableEq T] [Add T] [Sub T]
    [AndOp T] [OrOp T] [Xor T] (a : RelaxedAtomic T)
    (ops : List (AtomicOp T)) :
    runRelaxedOps a ops = ((seqOps a.v ops).1, ⟨(seqOps a.v ops).2⟩) := by
  induction ops generalizing a with
  | nil => rfl
  | cons op ops ih =>
      dsimp [runRelaxedOps, seqOps]
      rw [runRelaxedOp_eq_seqOp, ih]

/-- C8: every single-threaded sequence of operations run through the
embedded `RelaxedAtomic` member functions yields, operation by operation,
the observations and final content predicted by the plain-variable
sequential semantics; and every numeric fetch-op returns the content held
immediately prior to the modification. -/
theorem C8_relaxed_sequential {T : Type} [DecidableEq T] [Add T] [Sub T]
    [AndOp T] [OrOp T] [Xor T] (x : T) (ops : List (AtomicOp T)) :
    (runRelaxedOps ⟨x⟩ ops).1 = (seqOps x ops).1 ∧
    (runRelaxedOps ⟨x⟩ ops).2.v = (seqOps x ops).2 ∧
    (∀ (a : RelaxedAtomic T) (o : T),
      (a.FetchAddRelaxed o).1 = a.v ∧ (a.FetchSubRelaxed o).1 = a.v ∧
      (a.FetchAndRelaxed o).1 = a.v ∧ (a.FetchOrRelaxed o).1 = a.v ∧
      (a.FetchXorRelaxed o).1 = a.v) := by
  refine ⟨?_, ?_, fun a o => ⟨rfl, rfl, rfl, rfl, rfl⟩⟩
  · rw [runRelaxedOps_eq_seqOps]
  · rw [runRelaxedOps_eq_seqOps]

/-- C9: two executions of `Lock()`, `Wait()` or `TimedWait()` that differ
only in the statistics-sink and clock configuration perform identical
primitive operation sequences with identical arguments, and `TimedWait`
returns the identical boolean; the configuration influences only the
recorded samples. -/
theorem C9_config_noninterference (stats1 stats2 : Option Statistics)
    (clock1 clock2 : Option SystemClock) (code : TickerType) (bg : Bool)
    (e : Nat) (c o : Bool) (r : Nat) (raw : RawCondVar)
    (cb : Option (Nat → Nat)) (t : Nat) :
    (InstrumentedMutex.Lock ⟨stats1, clock1, code, bg⟩ e c o r).ops =
      (InstrumentedMutex.Lock ⟨stats2, clock2, code, bg⟩ e c o r).ops ∧
    (InstrumentedCondVar.Wait ⟨stats1, clock1, code⟩ e).ops =
      (InstrumentedCondVar.Wait ⟨stats2, clock2, code⟩ e).ops ∧
    (InstrumentedCondVar.TimedWait ⟨stats1, clock1, code⟩ raw cb t e).ops =
      (InstrumentedCondVar.TimedWait ⟨stats2, clock2, code⟩ raw cb t e
        ).ops ∧
    (InstrumentedCondVar.TimedWait ⟨stats1, clock1, code⟩ raw cb t e
        ).result =
      (InstrumentedCondVar.TimedWait ⟨stats2, clock2, code⟩ raw cb t e
        ).result :=
  ⟨rfl, rfl, rfl, rfl⟩

/-- C10: `Wait()` and `TimedWait()` record only under
`db_condition_wait_nanos`, `Lock()` records only under
`db_mutex_lock_nanos`, the two keys are distinct, and for any one shared
configuration the three calls record the same number of samples (the
gate — tag check and sink/clock/level condition — is identical). -/
theorem C10_distinct_histogram_keys (stats : Option Statistics)
    (clock : Option SystemClock) (code : TickerType) (bg : Bool)
    (e : Nat) (c o : Bool) (r : Nat) (raw : RawCondVar)
    (cb : Option (Nat → Nat)) (t : Nat) :
    HistogramKey.db_condition_wait_nanos ≠
      HistogramKey.db_mutex_lock_nanos ∧
    (∀ smp ∈ (InstrumentedMutex.Lock ⟨stats, clock, code, bg⟩ e c o r
        ).samples, smp.metric = HistogramKey.db_mutex_lock_nanos) ∧
    (∀ smp ∈ (InstrumentedCondVar.Wait ⟨stats, clock, code⟩ e).samples,
      smp.metric = HistogramKey.db_condition_wait_nanos) ∧
    (∀ smp ∈ (InstrumentedCondVar.TimedWait ⟨stats, clock, code⟩ raw cb t
        e).samples, smp.metric = HistogramKey.db_condition_wait_nanos) ∧
    (InstrumentedMutex.Lock ⟨stats, clock, code, bg⟩ e c o r
        ).samples.length =
      (InstrumentedCondVar.Wait ⟨stats, clock, code⟩ e).samples.length ∧
    (InstrumentedCondVar.Wait ⟨stats, clock, code⟩ e).samples.length =
      (InstrumentedCondVar.TimedWait ⟨stats, clock, code⟩ raw cb t e
        ).samples.length := by
  refine ⟨by decide, ?_, ?_, ?_, ?_, ?_⟩
  · intro smp hsmp
    dsimp [InstrumentedMutex.Lock, perfConditionalTimerForMutexGuard]
      at hsmp
    split at hsmp
    · simp at hsmp
      subst hsmp
      rfl
    · simp at hsmp
  · intro smp hsmp
    dsimp [InstrumentedCondVar.Wait, perfConditionalTimerForMutexGuard]
      at hsmp
    split at hsmp
    · simp at hsmp
      subst hsmp
      rfl
    · simp at hsmp
  · intro smp hsmp
    dsimp [InstrumentedCondVar.TimedWait,
      perfConditionalTimerForMutexGuard] at hsmp
    split at hsmp
    · simp at hsmp
      subst hsmp
      rfl
    · simp at hsmp
  · exact perfGuard_length _ _ _ _ _ _
  · exact perfGuard_length _ _ _ _ _ _

/-- C10, witness: at a fully instrumented configuration the single sample
recorded by `Lock()` carries the mutex-lock-wait key. -/
theorem C10_distinct_histogram_keys_witness :
    Sample.metric ⟨HistogramKey.db_mutex_lock_nanos, 7⟩ =
      HistogramKey.db_mutex_lock_nanos :=
  (C10_distinct_histogram_keys (some ⟨4⟩) (some ⟨0⟩)
    TickerType.DB_MUTEX_WAIT_MICROS false 7 false false 0
    ⟨fun _ => false⟩ none 0).2.1
    ⟨HistogramKey.db_mutex_lock_nanos, 7⟩ (by simp
      [InstrumentedMutex.Lock, perfConditionalTimerForMutexGuard,
       stats_for_report, kExceptTimeForMutex])

end RocksDB
